import Mathlib

/-!
Shallow embedding of the movies-frontend single-page application
(src/main.jsx, src/components/layout.jsx, src/lib/utils.js).

The application consists of three components:
- Layout: navigation bar with two links whose classes depend on the pathname;
- Home: a hard-coded list of movies rendered as cards;
- AddMovie: a form validated by a zod schema, whose submit handler only logs
  to the console, plus a single fetch of a genre list on mount.

JavaScript values flowing through the form and the fetched JSON are modelled
by the inductive JsValue; numbers are modelled by Rat.
-/

/-- A JavaScript value, as far as the embedded fragments need:
strings, numbers, undefined, arrays, and objects with string keys. -/
inductive JsValue where
  | str (s : String)
  | num (n : Rat)
  | undefined
  | arr (elems : List JsValue)
  | obj (fields : List (String × JsValue))

/-- JavaScript member access v.k: the field of an object, undefined otherwise.
Used by the genre dropdown rendering (genre.id, genre.name). -/
def getField (v : JsValue) (k : String) : JsValue :=
  match v with
  | .obj fs =>
      match fs.find? (fun p => p.1 = k) with
      | some p => p.2
      | none => .undefined
  | _ => .undefined

/-- Digits of a decimal literal folded into a natural number. -/
def digitsToNat (cs : List Char) : Nat :=
  cs.foldl (fun acc c => acc * 10 + (c.toNat - 48)) 0

/-- One character is a decimal digit. -/
def isDigit (c : Char) : Bool :=
  decide ('0' ≤ c) && decide (c ≤ '9')

/-- Parse an unsigned decimal literal (digits with an optional fractional
part), the shapes that arise from the numeric form inputs. Returns none on
any other shape, which JavaScript turns into NaN. -/
def parseDecimal (cs : List Char) : Option Rat :=
  match cs.span isDigit with
  | (intPart, []) =>
      if intPart.isEmpty then none else some (digitsToNat intPart)
  | (intPart, '.' :: fracPart) =>
      if fracPart.all isDigit && !(intPart.isEmpty && fracPart.isEmpty) then
        some ((digitsToNat intPart : Rat) +
          (digitsToNat fracPart : Rat) / ((10 : Rat) ^ fracPart.length))
      else none
  | _ => none

/-- One character is JavaScript whitespace, as far as the form inputs can
contain it. -/
def isJsWhitespace (c : Char) : Bool :=
  c = ' ' || c = '\t' || c = '\n' || c = '\r'

/-- Strip leading and trailing whitespace from a character list, the
trimming Number() applies to string inputs. -/
def trimChars (cs : List Char) : List Char :=
  ((cs.dropWhile isJsWhitespace).reverse.dropWhile isJsWhitespace).reverse

/-- JavaScript Number(string): trimmed empty string is 0, an optionally
signed decimal literal is its value, anything else is NaN (none).
Exponent, hexadecimal and Infinity forms never arise from the form inputs
and are modelled as NaN. -/
def parseJsNumberString (s : String) : Option Rat :=
  match trimChars s.toList with
  | [] => some 0
  | '+' :: rest => parseDecimal rest
  | '-' :: rest => (parseDecimal rest).map (fun r => -r)
  | cs => parseDecimal cs

/-- JavaScript ToNumber as used by z.coerce.number(): numbers pass through,
strings go through Number(), undefined is NaN (none). Arrays and objects
coerce through ToPrimitive, which never arises from the form inputs and is
modelled as NaN. -/
def jsToNumber : JsValue → Option Rat
  | .num n => some n
  | .str s => parseJsNumberString s
  | .undefined => none
  | .arr _ => none
  | .obj _ => none

/-- zod z.string().min(minLen): succeeds exactly on string values of length
at least minLen, returning the string. -/
def zodStringMin (minLen : Nat) : JsValue → Option String
  | .str s => if minLen ≤ s.length then some s else none
  | _ => none

/-- zod z.coerce.number(): succeeds exactly when ToNumber of the input is
not NaN. -/
def zodCoerceNumber (v : JsValue) : Option Rat :=
  jsToNumber v

/-- The raw values submitted for the five fields of the add-movie form
schema; a field the form never sets is undefined. -/
structure FormInput where
  name : JsValue
  description : JsValue
  year : JsValue
  duration : JsValue
  genre_id : JsValue

/-- The parsed output of the zod schema: the validated form data the submit
callback receives. -/
structure MovieFormData where
  name : String
  description : String
  year : Rat
  duration : Rat
  genre_id : Rat

/-- The field names of the zod schema object, in declaration order
(layout.jsx lines 108-137). -/
def schemaFields : List String :=
  ["name", "description", "year", "duration", "genre_id"]

/-- The zod schema of layout.jsx lines 108-137: name is a string of at
least 2 characters, description a string of at least 10 characters, and
year, duration and genre_id coerce to numbers. -/
def parseSchema (i : FormInput) : Option MovieFormData :=
  match zodStringMin 2 i.name, zodStringMin 10 i.description,
        zodCoerceNumber i.year, zodCoerceNumber i.duration,
        zodCoerceNumber i.genre_id with
  | some n, some d, some y, some du, some g => some ⟨n, d, y, du, g⟩
  | _, _, _, _, _ => none

/-- The movie record hard-coded in the Home page module. -/
structure Movie where
  id : Nat
  title : String
  year : Nat
  genre : String
  rating : Rat
  description : String
deriving DecidableEq

/-- The sample movie of layout.jsx lines 329-337 (rating 8.8 = 44/5). -/
def movie : Movie :=
  { id := 1
    title := "Inception"
    year := 2010
    genre := "Sci-Fi"
    rating := (44 : Rat) / 5
    description := "A thief who steals corporate secrets through the use of dream-sharing technology is given the inverse task of planting an idea into the mind of a C.E.O." }

/-- The field names of the movie record, in declaration order
(layout.jsx lines 329-337). -/
def movieFields : List String :=
  ["id", "title", "year", "genre", "rating", "description"]

/-- The observable application state the submit handler could touch:
the current route, the Home movie list, and the AddMovie genre list. -/
structure AppState where
  route : String
  movies : List Movie
  genres : List JsValue

/-- An observable side effect of a handler: a console.log of validated form
data, or a network request. -/
inductive Effect where
  | consoleLog (data : MovieFormData)
  | network (method : String) (url : String)

/-- Whether an effect is a console log. -/
def Effect.isConsoleLog : Effect → Bool
  | .consoleLog _ => true
  | .network _ _ => false

/-- Whether an effect is a network request. -/
def Effect.isNetwork : Effect → Bool
  | .consoleLog _ => false
  | .network _ _ => true

/-- react-hook-form form.handleSubmit with the zodResolver of the schema:
the wrapped callback runs exactly when the resolver validates the input,
and receives the parsed data; on a validation failure nothing runs and the
state is untouched. -/
def handleSubmit (cb : MovieFormData → AppState → AppState × List Effect)
    (input : FormInput) (s : AppState) : AppState × List Effect :=
  match parseSchema input with
  | some data => cb data s
  | none => (s, [])

/-- The submit callback of layout.jsx lines 170-172: it only logs the
validated data to the console and does not touch any state. -/
def onSubmitCallback (data : MovieFormData) (s : AppState) :
    AppState × List Effect :=
  (s, [Effect.consoleLog data])

/-- The onSubmit handler of the add-movie form:
form.handleSubmit with a callback that only calls console.log(data). -/
def onSubmit : FormInput → AppState → AppState × List Effect :=
  handleSubmit onSubmitCallback

/-- The local component state of AddMovie: the genres state variable. -/
structure AddMovieState where
  genres : List JsValue

/-- useState([]) for the genres state of AddMovie (layout.jsx line 151). -/
def initialAddMovieState : AddMovieState :=
  ⟨[]⟩

/-- A fetch call as it appears in the source: its method, url, the
useEffect dependency array it runs under (empty means it fires once when
the component mounts), the handler of the JSON-parsed response, and the
optional rejection handler (none when the chain has no catch branch). -/
structure FetchCall where
  method : String
  url : String
  deps : List String
  onResolve : List JsValue → AddMovieState → AddMovieState
  onReject : Option (AddMovieState → AddMovieState)

/-- The single fetch of layout.jsx lines 153-159:
fetch to the genre endpoint, response parsed as JSON, the data stored into
the genres state with no validation, no catch branch, inside a useEffect
with an empty dependency array. fetch with no init object defaults to GET. -/
def genreFetch : FetchCall :=
  { method := "GET"
    url := "http://localhost:8000/genre"
    deps := []
    onResolve := fun data s => { s with genres := data }
    onReject := none }

/-- Fetch calls issued by Layout: none. -/
def layoutFetches : List FetchCall := []

/-- Fetch calls issued by Home: none. -/
def homeFetches : List FetchCall := []

/-- Fetch calls issued by AddMovie: the single genre fetch. -/
def addMovieFetches : List FetchCall := [genreFetch]

/-- Every asynchronous operation of the application, by component. -/
def appFetches : List FetchCall :=
  layoutFetches ++ homeFetches ++ addMovieFetches

/-- The module-level static genre list of layout.jsx lines 141-147. It is
shadowed inside AddMovie by the genres state variable. -/
def genresStatic : List JsValue :=
  [ .obj [("id", .num 1), ("name", .str "Action")],
    .obj [("id", .num 2), ("name", .str "Comedy")],
    .obj [("id", .num 3), ("name", .str "Drama")],
    .obj [("id", .num 4), ("name", .str "Horror")],
    .obj [("id", .num 5), ("name", .str "Romance")] ]

/-- One option of the genre Select: its React key, its value and its
visible label. -/
structure SelectOption where
  key : JsValue
  value : JsValue
  label : JsValue

/-- The SelectContent of layout.jsx lines 263-269: one SelectItem per
element of the genres state variable (the state binding shadows the
module-level list), keyed by genre.id, valued by genre.id, labelled by
genre.name. -/
def renderGenreOptions (s : AddMovieState) : List SelectOption :=
  s.genres.map (fun genre =>
    ⟨getField genre "id", getField genre "id", getField genre "name"⟩)

/-- One FormField as rendered inside the add-movie form: the schema field
it is registered under and whether a FormMessage sits next to it. -/
structure FormFieldRender where
  fieldName : String
  hasFormMessage : Bool

/-- The four FormFields of the add-movie form, in render order
(layout.jsx lines 204-300): name, year, genre_id, description, each with
an inline FormMessage. The schema field duration has no FormField. -/
def addMovieFormFields : List FormFieldRender :=
  [ ⟨"name", true⟩,
    ⟨"year", true⟩,
    ⟨"genre_id", true⟩,
    ⟨"description", true⟩ ]

/-- The local component state of Home: the movies state variable. -/
structure HomeState where
  movies : List Movie
deriving DecidableEq

/-- useState([movie, movie, movie, movie]) of layout.jsx line 344. -/
def initialHomeState : HomeState :=
  ⟨[movie, movie, movie, movie]⟩

/-- The interactive events of the Home page. The only control is the
Delete button of each card, whose onClick handler is commented out. -/
inductive HomeEvent where
  | deleteClick (cardIndex : Nat)

/-- The state transition of Home on an event: the Delete button has no
onClick handler and setMovies is never called, so every event leaves the
state unchanged. -/
def homeUpdate : HomeEvent → HomeState → HomeState
  | _, s => s

/-- Folding a sequence of events through the Home state transition. -/
def homeRun (events : List HomeEvent) (s : HomeState) : HomeState :=
  events.foldl (fun st e => homeUpdate e st) s

/-- One rendered movie card of the Home grid. -/
structure MovieCard where
  key : Nat
  title : String
  year : Nat
  genre : String
  rating : Rat
  description : String
deriving DecidableEq

/-- The Home grid of layout.jsx lines 368-419: movies.map with a callback
that discards its element argument and renders the module-level movie
constant, with key movie.id. -/
def renderHome (movies : List Movie) : List MovieCard :=
  movies.map (fun _ =>
    ⟨movie.id, movie.title, movie.year, movie.genre, movie.rating,
      movie.description⟩)

/-- The card every Home cell renders: the module-level movie constant. -/
def inceptionCard : MovieCard :=
  ⟨movie.id, movie.title, movie.year, movie.genre, movie.rating,
    movie.description⟩

/-- The two pages of the application. -/
inductive Page where
  | home
  | addMovie
deriving DecidableEq

/-- A route element: a page wrapped in Layout, or a bare page. The router
of main.jsx only ever builds the wrapped form. -/
inductive RouteElement where
  | layout (child : Page)
  | bare (child : Page)
deriving DecidableEq

/-- Whether a route element wraps its page in Layout. -/
def RouteElement.isLayout : RouteElement → Bool
  | .layout _ => true
  | .bare _ => false

/-- One route of the router configuration. -/
structure Route where
  path : String
  element : RouteElement
deriving DecidableEq

/-- The router of main.jsx lines 23-43: the root path renders Home inside
Layout, and the add-movie path renders AddMovie inside Layout. -/
def router : List Route :=
  [ ⟨"/", .layout .home⟩,
    ⟨"/add-movie", .layout .addMovie⟩ ]

/-- Route matching: the element of the first route whose path equals the
pathname. -/
def matchRoute (pathname : String) : Option RouteElement :=
  (router.find? (fun r => r.path = pathname)).map (fun r => r.element)

/-- The class prefix shared by both navigation links (layout.jsx). -/
def navLinkBase : String :=
  "px-4 py-2 rounded-lg transition-colors "

/-- The active style classes of a navigation link. -/
def activeStyle : String :=
  "bg-primary text-primary-foreground"

/-- The inactive style classes of a navigation link. -/
def inactiveStyle : String :=
  "text-foreground hover:bg-secondary hover:text-white"

/-- The className of the Movies link (layout.jsx lines 34-43): active
styles exactly when the pathname is the root path. -/
def moviesLinkClass (pathname : String) : String :=
  navLinkBase ++ (if pathname = "/" then activeStyle else inactiveStyle)

/-- The className of the Add Movie link (layout.jsx lines 46-55): active
styles exactly when the pathname is the add-movie path. -/
def addMovieLinkClass (pathname : String) : String :=
  navLinkBase ++ (if pathname = "/add-movie" then activeStyle else inactiveStyle)

/-- A link carries the active style when its class string is the base
classes followed by the active classes. -/
def carriesActiveStyle (cls : String) : Prop :=
  cls = navLinkBase ++ activeStyle

/-- A sample application state for concrete evaluations. -/
def sampleState : AppState :=
  ⟨"/add-movie", [], []⟩

/-- A sample form input that satisfies every rule of the schema. -/
def sampleValidInput : FormInput :=
  ⟨.str "Inception", .str "A mind-bending heist.", .str "2010", .str "148",
    .str "1"⟩

/-!
Helper lemmas shared by the claim theorems.
-/

/-- String validation succeeds exactly on strings of sufficient length. -/
theorem zodStringMin_isSome (minLen : Nat) (v : JsValue) :
    (zodStringMin minLen v).isSome = true ↔
      ∃ s, v = JsValue.str s ∧ minLen ≤ s.length := by
  cases v with
  | str s => by_cases h : minLen ≤ s.length <;> simp [zodStringMin, h]
  | num n => simp [zodStringMin]
  | undefined => simp [zodStringMin]
  | arr es => simp [zodStringMin]
  | obj fs => simp [zodStringMin]

/-- Schema parsing succeeds exactly when all five field rules succeed. -/
theorem parseSchema_isSome (i : FormInput) :
    (parseSchema i).isSome = true ↔
      (zodStringMin 2 i.name).isSome = true ∧
      (zodStringMin 10 i.description).isSome = true ∧
      (zodCoerceNumber i.year).isSome = true ∧
      (zodCoerceNumber i.duration).isSome = true ∧
      (zodCoerceNumber i.genre_id).isSome = true := by
  unfold parseSchema
  cases zodStringMin 2 i.name <;>
    cases zodStringMin 10 i.description <;>
      cases zodCoerceNumber i.year <;>
        cases zodCoerceNumber i.duration <;>
          cases zodCoerceNumber i.genre_id <;> simp

/-- The submit handler produces an effect exactly when parsing succeeds. -/
theorem onSubmit_effects_ne_nil (input : FormInput) (s : AppState) :
    (onSubmit input s).2 ≠ [] ↔ (parseSchema input).isSome = true := by
  unfold onSubmit handleSubmit
  cases parseSchema input <;> simp [onSubmitCallback]

/-- Every event sequence leaves the Home state unchanged. -/
theorem homeRun_id (events : List HomeEvent) (s : HomeState) :
    homeRun events s = s := by
  induction events generalizing s with
  | nil => rfl
  | cons e rest ih => exact ih (homeUpdate e s)

/-!
Claim theorems.
-/

/-- Claim C1: for every form submission, the submit handler performs no
network call; its only effect is to log the validated form data to the
console, and it leaves all application state (the movie list, the genre
list, the route) unchanged. -/
theorem submit_no_network_state_unchanged (input : FormInput) (s : AppState) :
    (onSubmit input s).1 = s ∧
      (onSubmit input s).2 = ((parseSchema input).map Effect.consoleLog).toList ∧
      ((onSubmit input s).2.filter Effect.isNetwork) = [] := by
  unfold onSubmit handleSubmit
  cases parseSchema input <;> simp [onSubmitCallback, Effect.isNetwork]

/-- Witness for C1 at a concrete input and state. -/
theorem submit_no_network_state_unchanged_witness :
    (onSubmit sampleValidInput sampleState).1 = sampleState :=
  (submit_no_network_state_unchanged sampleValidInput sampleState).1

/-- Claim C2: the submit callback runs if and only if name is a string of
length at least 2, description is a string of length at least 10, and
year, duration and genre_id each coerce to a number; on any input
violating these rules the callback is not invoked. -/
theorem submit_callback_iff_valid (input : FormInput) (s : AppState) :
    (onSubmit input s).2 ≠ [] ↔
      ((∃ n, input.name = JsValue.str n ∧ 2 ≤ n.length) ∧
       (∃ d, input.description = JsValue.str d ∧ 10 ≤ d.length) ∧
       (zodCoerceNumber input.year).isSome = true ∧
       (zodCoerceNumber input.duration).isSome = true ∧
       (zodCoerceNumber input.genre_id).isSome = true) := by
  rw [onSubmit_effects_ne_nil, parseSchema_isSome,
    zodStringMin_isSome 2 input.name, zodStringMin_isSome 10 input.description]

/-- Witness for C2: on a concrete valid input the callback is invoked. -/
theorem submit_callback_iff_valid_witness :
    (onSubmit sampleValidInput sampleState).2 ≠ [] :=
  (submit_callback_iff_valid sampleValidInput sampleState).mpr
    ⟨⟨"Inception", rfl, by decide⟩,
      ⟨"A mind-bending heist.", rfl, by decide⟩,
      by decide, by decide, by decide⟩

/-- Claim C3: the application performs exactly one asynchronous operation,
a GET to the hard-coded genre endpoint fired once on mount (empty
dependency array); the JSON-parsed response is stored into the genres
state unchanged, and the chain has no rejection handler. -/
theorem single_async_genre_fetch :
    appFetches = [genreFetch] ∧
      genreFetch.method = "GET" ∧
      genreFetch.url = "http://localhost:8000/genre" ∧
      genreFetch.deps = [] ∧
      genreFetch.onReject = none ∧
      ∀ (data : List JsValue) (s : AddMovieState),
        genreFetch.onResolve data s = ⟨data⟩ :=
  ⟨rfl, rfl, rfl, rfl, rfl, fun _ _ => rfl⟩

/-- Witness for C3 at a concrete response and state. -/
theorem single_async_genre_fetch_witness :
    genreFetch.onResolve genresStatic initialAddMovieState = ⟨genresStatic⟩ :=
  single_async_genre_fetch.2.2.2.2.2 genresStatic initialAddMovieState

/-- Claim C4: the Home movie list starts as the same hard-coded movie
repeated identically four times, and no event of the component ever
changes it, so it stays at its initial value. -/
theorem home_movies_constant :
    initialHomeState.movies = [movie, movie, movie, movie] ∧
      initialHomeState.movies = List.replicate 4 movie ∧
      ∀ events : List HomeEvent,
        homeRun events initialHomeState = initialHomeState :=
  ⟨rfl, rfl, fun events => homeRun_id events initialHomeState⟩

/-- Witness for C4 at a concrete event sequence. -/
theorem home_movies_constant_witness :
    homeRun [HomeEvent.deleteClick 0, HomeEvent.deleteClick 3]
        initialHomeState = initialHomeState :=
  home_movies_constant.2.2 [HomeEvent.deleteClick 0, HomeEvent.deleteClick 3]

/-- Counterexample to C5 as stated: the field description, distinct from
year, belongs to both the form schema and the movie record, so year is
not the only shared field name. -/
theorem schema_movie_share_description :
    "description" ∈ schemaFields ∧ "description" ∈ movieFields ∧
      "description" ≠ "year" := by
  decide

/-- Claim C5 amended: the schema consists of exactly the five fields
name, description, year, duration, genre_id; the field names it shares
with the movie record are exactly description and year. -/
theorem schema_fields_and_overlap :
    schemaFields = ["name", "description", "year", "duration", "genre_id"] ∧
      schemaFields.filter (fun f => movieFields.contains f) =
        ["description", "year"] := by
  exact ⟨rfl, rfl⟩

/-- Counterexample to C6 as stated: the schema field duration has no
rendered FormField, so its validation errors are not surfaced inline next
to any field. -/
theorem duration_field_not_rendered :
    "duration" ∈ schemaFields ∧
      "duration" ∉ addMovieFormFields.map (fun f => f.fieldName) := by
  decide

/-- Claim C6 amended: the four rendered form fields (name, year, genre_id,
description) each surface validation errors inline via a FormMessage; the
schema field duration is not rendered at all, and no other error has a
handler (in particular the genre fetch has no rejection handler). -/
theorem error_handling_surface :
    addMovieFormFields.map (fun f => f.fieldName) =
        ["name", "year", "genre_id", "description"] ∧
      addMovieFormFields.all (fun f => f.hasFormMessage) = true ∧
      genreFetch.onReject = none :=
  ⟨rfl, rfl, rfl⟩

/-- Claim C7: the router defines exactly two routes, the root path
rendering Home and the add-movie path rendering AddMovie, and every route
wraps its page in Layout. -/
theorem router_two_layout_routes :
    router.length = 2 ∧
      matchRoute "/" = some (RouteElement.layout Page.home) ∧
      matchRoute "/add-movie" = some (RouteElement.layout Page.addMovie) ∧
      router.all (fun r => r.element.isLayout) = true := by
  refine ⟨rfl, ?_, ?_, rfl⟩ <;> decide

/-- Claim C8: the Home list rendering ignores the elements of the movies
array; every cell renders the module-level movie constant with React key
movie.id = 1, so the output is determined by the length of the array
alone. -/
theorem home_render_ignores_elements (movies : List Movie) :
    renderHome movies = List.replicate movies.length inceptionCard ∧
      inceptionCard.key = 1 := by
  refine ⟨?_, rfl⟩
  induction movies with
  | nil => rfl
  | cons m rest ih =>
      show inceptionCard :: renderHome rest =
        inceptionCard :: List.replicate rest.length inceptionCard
      rw [ih]

/-- Witness for C8 at a concrete movie list. -/
theorem home_render_ignores_elements_witness :
    renderHome [movie, movie] = List.replicate 2 inceptionCard :=
  (home_render_ignores_elements [movie, movie]).1

/-- Claim C9: the genre dropdown options come exclusively from the genres
state, which starts as the empty array, so the select offers zero options
until a fetched response is stored; the shadowed module-level static list
still has its five entries but none of them reach the dropdown. -/
theorem genre_options_from_state :
    renderGenreOptions initialAddMovieState = [] ∧
      genresStatic.length = 5 ∧
      (∀ s : AddMovieState,
        (renderGenreOptions s).length = s.genres.length) ∧
      ∀ (data : List JsValue) (s : AddMovieState),
        renderGenreOptions (genreFetch.onResolve data s) =
          data.map (fun genre =>
            ⟨getField genre "id", getField genre "id",
              getField genre "name"⟩) :=
  ⟨rfl, rfl, fun s => by simp [renderGenreOptions], fun _ _ => rfl⟩

/-- Witness for C9 at a concrete state. -/
theorem genre_options_from_state_witness :
    (renderGenreOptions ⟨genresStatic⟩).length = genresStatic.length :=
  genre_options_from_state.2.2.1 ⟨genresStatic⟩

/-- Claim C10: for every pathname, the Movies link carries the active
style exactly when the pathname is the root path, the Add Movie link
exactly when it is the add-movie path, and the two links never carry the
active style at the same time. -/
theorem nav_active_style_iff (pathname : String) :
    (carriesActiveStyle (moviesLinkClass pathname) ↔ pathname = "/") ∧
      (carriesActiveStyle (addMovieLinkClass pathname) ↔
        pathname = "/add-movie") ∧
      ¬(carriesActiveStyle (moviesLinkClass pathname) ∧
          carriesActiveStyle (addMovieLinkClass pathname)) := by
  have hne : ¬(navLinkBase ++ inactiveStyle = navLinkBase ++ activeStyle) := by
    decide
  by_cases h1 : pathname = "/" <;> by_cases h2 : pathname = "/add-movie" <;>
    simp_all [carriesActiveStyle, moviesLinkClass, addMovieLinkClass]

/-- Witness for C10 at the root pathname. -/
theorem nav_active_style_iff_witness :
    carriesActiveStyle (moviesLinkClass "/") :=
  (nav_active_style_iff "/").1.mpr rfl
